import Mathlib

/-!
Verification of the review-session coordination protocol of the
code-review-copilot repository.

The Python sources are shallowly embedded: each Firestore document is a
record of optional fields (absence of a field is `none`, matching Python
`dict.get` semantics), and each transactional update function of the
sources becomes a pure function from document to document.  The
`created_at` server timestamp is omitted: it is an opaque value that no
guard or mutation of the embedded code reads.

Source files embedded here:
  services/pr-orchestrator/main.py        (webhook ingestion, fan-out)
  functions/consolidation-trigger/main.py (completion watcher)
  agents/quality-analyst/main.py          (fenced worker commits, model call)
  agents/doc-drafter/main.py              (fenced worker commits, retry helper)
  agents/security-specialist/main.py      (unfenced worker commits)
  agents/report-consolidator/main.py      (final fenced commits, retry helper)
-/

namespace CodeReviewCopilot

/-- The `pr_info` map built by the orchestrator (pr-orchestrator/main.py,
step 3): every field comes from `dict.get` on the webhook payload and may
be absent (`None`). -/
structure PRInfo where
  pr_number : Option Int
  repo_full_name : Option String
  html_url : Option String
  head_sha : Option String
  base_sha : Option String
  head_ref : Option String
  base_ref : Option String
deriving Repr, DecidableEq

/-- The empty map `{}` used by the workers when the stored `pr_info` is
absent (`doc_snapshot.get("pr_info") or {}`). -/
def PRInfo.empty : PRInfo :=
  ⟨none, none, none, none, none, none, none⟩

/-- One analysis record `{"file_path": ..., "feedback": ...}` as produced
by every agent. -/
structure AnalysisResult where
  file_path : String
  feedback : String
deriving Repr, DecidableEq

/-- A review-session Firestore document.  Every field the embedded code
reads or writes appears here; `none` models an absent field.  Note the
asymmetry faithful to the sources: the quality agent and the security
agent write their error text to `error_message`, while the doc drafter
writes `docs_error`; `quality_error` and `security_error` are only ever
read (by the completion watcher's snapshot). -/
structure ReviewDoc where
  status : Option String
  pr_info : Option PRInfo
  tasks_completed : Option Nat
  total_tasks : Option Int
  quality_status : Option String
  security_status : Option String
  docs_status : Option String
  quality_analysis_results : Option (List AnalysisResult)
  security_analysis_results : Option (List AnalysisResult)
  docs_analysis_results : Option (List AnalysisResult)
  quality_error : Option String
  docs_error : Option String
  security_error : Option String
  error_message : Option String
  final_report : Option String
  final_consolidator_error : Option String
deriving Repr, DecidableEq

/-- A document none of whose fields has ever been written. -/
def ReviewDoc.empty : ReviewDoc :=
  ⟨none, none, none, none, none, none, none, none,
   none, none, none, none, none, none, none, none⟩

/-- The stored fencing token:
`(doc_snapshot.get("pr_info") or {}).get("head_sha")`, as read by every
fenced commit in the agents. -/
def ReviewDoc.currentSha (d : ReviewDoc) : Option String :=
  (d.pr_info.getD PRInfo.empty).head_sha

namespace QualityAnalyst

/-- agents/quality-analyst/main.py, `update_firestore_atomically`
(lines 82-98): inside a transaction, read `pr_info.head_sha`; if it
equals `task_sha`, write the quality results, mark the domain complete
and increment `tasks_completed`; otherwise abort with no mutation.
`firestore.Increment(1)` on an absent field writes 1, hence `getD 0`. -/
def update_firestore_atomically (d : ReviewDoc) (task_sha : Option String)
    (analysis_results : List AnalysisResult) : ReviewDoc :=
  if d.currentSha = task_sha then
    { d with
      quality_analysis_results := some analysis_results
      quality_status := some "complete"
      tasks_completed := some (d.tasks_completed.getD 0 + 1) }
  else d

/-- agents/quality-analyst/main.py, `update_error_atomically`
(lines 100-109): under the same fence, set `quality_status = "error"`
and write the error text to the `error_message` field.  It does not
touch `tasks_completed`. -/
def update_error_atomically (d : ReviewDoc) (task_sha : Option String)
    (error_message : String) : ReviewDoc :=
  if d.currentSha = task_sha then
    { d with
      quality_status := some "error"
      error_message := some error_message }
  else d

end QualityAnalyst

namespace DocDrafter

/-- agents/doc-drafter/main.py, `update_firestore_atomically`
(lines 88-104): same fenced commit as the quality agent but for the
docs fields. -/
def update_firestore_atomically (d : ReviewDoc) (task_sha : Option String)
    (analysis_results : List AnalysisResult) : ReviewDoc :=
  if d.currentSha = task_sha then
    { d with
      docs_analysis_results := some analysis_results
      docs_status := some "complete"
      tasks_completed := some (d.tasks_completed.getD 0 + 1) }
  else d

/-- agents/doc-drafter/main.py, `update_error_atomically` (lines
106-117): under the fence, set `docs_status = "error"` and write the
agent-specific `docs_error` field.  It does not touch
`tasks_completed`. -/
def update_error_atomically (d : ReviewDoc) (task_sha : Option String)
    (error_message : String) : ReviewDoc :=
  if d.currentSha = task_sha then
    { d with
      docs_status := some "error"
      docs_error := some error_message }
  else d

end DocDrafter

namespace SecuritySpecialist

/-- agents/security-specialist/main.py, `main` step 5 (lines 92-97),
also the no-relevant-files branch (lines 50-57): a plain
`review_ref.update` with NO transaction and NO head_sha comparison —
the write is applied whatever the stored `pr_info.head_sha` is. -/
def success_update (d : ReviewDoc)
    (analysis_results : List AnalysisResult) : ReviewDoc :=
  { d with
    security_analysis_results := some analysis_results
    security_status := some "complete"
    tasks_completed := some (d.tasks_completed.getD 0 + 1) }

/-- agents/security-specialist/main.py, `main` except-branch (lines
100-102): unconditional `review_ref.update` setting
`security_status = "error"` and `error_message`.  No fence and no
`tasks_completed` increment. -/
def error_update (d : ReviewDoc) (error_message : String) : ReviewDoc :=
  { d with
    security_status := some "error"
    error_message := some error_message }

end SecuritySpecialist

namespace ReportConsolidator

/-- agents/report-consolidator/main.py, `update_final_report_atomically`
(lines 29-46): if the stored `pr_info.head_sha` equals `task_sha`, set
the session-level `status = "complete"` and write `final_report`;
otherwise no mutation.  Note the fence checks only the sha, never the
current `status`. -/
def update_final_report_atomically (d : ReviewDoc) (task_sha : Option String)
    (report_markdown : String) : ReviewDoc :=
  if d.currentSha = task_sha then
    { d with
      status := some "complete"
      final_report := some report_markdown }
  else d

/-- agents/report-consolidator/main.py, `update_final_error_atomically`
(lines 48-65): under the same sha-only fence, set `status = "error"`
and write `final_consolidator_error`. -/
def update_final_error_atomically (d : ReviewDoc) (task_sha : Option String)
    (error_message : String) : ReviewDoc :=
  if d.currentSha = task_sha then
    { d with
      status := some "error"
      final_consolidator_error := some error_message }
  else d

end ReportConsolidator

namespace ConsolidationTrigger

/-- The JSON-safe snapshot `safe_data` built by
functions/consolidation-trigger/main.py (lines 58-70): per-domain
status/results/error fields only, with `[]` defaults for the result
lists. -/
structure SafeData where
  quality_status : Option String
  quality_analysis_results : List AnalysisResult
  quality_error : Option String
  security_status : Option String
  security_analysis_results : List AnalysisResult
  security_error : Option String
  docs_status : Option String
  docs_analysis_results : List AnalysisResult
  docs_error : Option String
deriving Repr, DecidableEq

/-- functions/consolidation-trigger/main.py (lines 58-70): the snapshot
forwarded in the consolidation message. -/
def safe_data (d : ReviewDoc) : SafeData :=
  { quality_status := d.quality_status
    quality_analysis_results := d.quality_analysis_results.getD []
    quality_error := d.quality_error
    security_status := d.security_status
    security_analysis_results := d.security_analysis_results.getD []
    security_error := d.security_error
    docs_status := d.docs_status
    docs_analysis_results := d.docs_analysis_results.getD []
    docs_error := d.docs_error }

/-- The consolidation message published at lines 73-80:
`{"review_id": ..., "pr_info": ..., "full_data": safe_data}`. -/
structure ConsolidationMsg where
  review_id : String
  pr_info : Option PRInfo
  full_data : SafeData
deriving Repr, DecidableEq

/-- The guard of `trigger_consolidation` (lines 43-48):
`data.get("tasks_completed", 0) >= data.get("total_tasks", -1)` and
`data.get("status", "") == "pending"`.  `tasks_completed` is a counter
(written 0 at creation and only incremented), hence `Nat` cast to `Int`
for the comparison against the `-1` default. -/
def watcherCond (d : ReviewDoc) : Bool :=
  decide (d.total_tasks.getD (-1) ≤ (d.tasks_completed.getD 0 : Int))
    && (d.status.getD "" == "pending")

/-- functions/consolidation-trigger/main.py, `trigger_consolidation`
(lines 33-82): inside a transaction, read the document; if it does not
exist, return; if the completion guard holds, set
`status = "consolidating"` and publish one consolidation message built
from the pre-flip snapshot; otherwise do nothing.  `rid` is
`doc_ref.id`. -/
def trigger_consolidation (rid : String) (doc : Option ReviewDoc) :
    Option ReviewDoc × Option ConsolidationMsg :=
  match doc with
  | none => (none, none)
  | some d =>
    if watcherCond d then
      (some { d with status := some "consolidating" },
       some { review_id := rid, pr_info := d.pr_info, full_data := safe_data d })
    else (some d, none)

end ConsolidationTrigger

namespace PROrchestrator

/-- The inbound webhook fields read by
services/pr-orchestrator/main.py (lines 56-75); every one is obtained by
`dict.get` and may be absent. -/
structure WebhookPayload where
  action : Option String
  number : Option Int
  repo_full_name : Option String
  html_url : Option String
  head_sha : Option String
  base_sha : Option String
  head_ref : Option String
  base_ref : Option String
deriving Repr, DecidableEq

/-- Step 3 of `receive_webhook` (lines 65-75): assemble `pr_info`. -/
def extract_pr_info (p : WebhookPayload) : PRInfo :=
  { pr_number := p.number
    repo_full_name := p.repo_full_name
    html_url := p.html_url
    head_sha := p.head_sha
    base_sha := p.base_sha
    head_ref := p.head_ref
    base_ref := p.base_ref }

/-- Line 81: `review_id = f"{repo.replace('/', '_')}_{pr_number}"`;
a missing PR number renders as the string "None". -/
def review_id (repo : String) (num : Option Int) : String :=
  (repo.replace "/" "_") ++ "_" ++
    (match num with
     | some n => toString n
     | none => "None")

/-- Lines 86-95: `review_ref.set({...}, merge=True)`.  The listed
fields are overwritten (every key of the nested `pr_info` map is
present in the written value, so `pr_info` is replaced wholesale);
every field NOT listed — in particular the per-domain analysis
results, the error fields and `final_report` — is left as it was. -/
def set_merge (store : Option ReviewDoc) (info : PRInfo) : ReviewDoc :=
  let d := store.getD ReviewDoc.empty
  { d with
    status := some "pending"
    pr_info := some info
    tasks_completed := some 0
    total_tasks := some 3
    quality_status := some "pending"
    security_status := some "pending"
    docs_status := some "pending" }

/-- One fan-out message (lines 97-112): the same
`{"review_id", "pr_info"}` payload published to each of the three
domain topics. -/
structure DispatchMsg where
  topic : String
  review_id : String
  pr_info : PRInfo
deriving Repr, DecidableEq

/-- Line 58: the actions that trigger session creation. -/
def allowed_actions : List (Option String) :=
  [some "opened", some "reopened", some "synchronize"]

/-- services/pr-orchestrator/main.py, `receive_webhook` (lines 56-117),
after signature verification: actions outside `allowed_actions` get a
204 response with no store write and no messages; otherwise the session
document is upserted with `merge=True` and one message per domain topic
is published.  A payload with no `repository.full_name` makes line 81
raise (`None.replace`), modelled as `Except.error`. -/
def receive_webhook (p : WebhookPayload) (store : Option ReviewDoc) :
    Except String (Option ReviewDoc × List DispatchMsg × Nat) :=
  if p.action ∈ allowed_actions then
    match p.repo_full_name with
    | none => .error "AttributeError: NoneType has no attribute replace"
    | some repo =>
      let info := extract_pr_info p
      let rid := review_id repo p.number
      let d := set_merge store info
      .ok (some d,
        [{ topic := "code-review-tasks", review_id := rid, pr_info := info },
         { topic := "security-review-tasks", review_id := rid, pr_info := info },
         { topic := "docs-review-tasks", review_id := rid, pr_info := info }],
        200)
  else .ok (store, [], 204)

end PROrchestrator

/-! ## Event machine

The domain-commit mutations that can hit one session document, plus the
push-triggered completion-watcher invocation (the Cloud Function fires
on every document update).  Each event applies the corresponding
embedded operation; only the watcher can publish a consolidation
message. -/

/-- One mutation event against a fixed session document. -/
inductive Event where
  | qualitySuccess (task_sha : Option String) (rs : List AnalysisResult)
  | qualityError (task_sha : Option String) (msg : String)
  | docsSuccess (task_sha : Option String) (rs : List AnalysisResult)
  | docsError (task_sha : Option String) (msg : String)
  | securitySuccess (rs : List AnalysisResult)
  | securityError (msg : String)
  | watcher
deriving Repr, DecidableEq

/-- Apply one event to the document; the watcher may also publish. -/
def applyEvent (rid : String) (d : ReviewDoc) :
    Event → ReviewDoc × Option ConsolidationTrigger.ConsolidationMsg
  | .qualitySuccess sha rs =>
      (QualityAnalyst.update_firestore_atomically d sha rs, none)
  | .qualityError sha msg =>
      (QualityAnalyst.update_error_atomically d sha msg, none)
  | .docsSuccess sha rs =>
      (DocDrafter.update_firestore_atomically d sha rs, none)
  | .docsError sha msg =>
      (DocDrafter.update_error_atomically d sha msg, none)
  | .securitySuccess rs =>
      (SecuritySpecialist.success_update d rs, none)
  | .securityError msg =>
      (SecuritySpecialist.error_update d msg, none)
  | .watcher =>
      match ConsolidationTrigger.trigger_consolidation rid (some d) with
      | (d', m) => (d'.getD d, m)

/-- Run a sequence of events, returning the final document and the
number of consolidation messages published along the way. -/
def run (rid : String) (d : ReviewDoc) : List Event → ReviewDoc × Nat
  | [] => (d, 0)
  | e :: es =>
    let step := applyEvent rid d e
    let rest := run rid step.1 es
    (rest.1, (if step.2.isSome then 1 else 0) + rest.2)

/-- Events whose commit increments `tasks_completed` when (for the
fenced ones) the sha matches. -/
def Event.isSuccess : Event → Bool
  | .qualitySuccess _ _ => true
  | .docsSuccess _ _ => true
  | .securitySuccess _ => true
  | _ => false

/-! ## Inference collaborator and the retry helper

`generate_content_with_retry` appears verbatim in
agents/doc-drafter/main.py (lines 183-211) and
agents/report-consolidator/main.py (lines 128-156).  A call trace is a
stream of outcomes, one per attempted `model.generate_content` call;
`jit k` models the `random.random()` jitter added to the k-th backoff
sleep. -/

/-- The error classes of `google.api_core.exceptions` the helper
distinguishes. -/
inductive ApiError where
  | resourceExhausted
  | serviceUnavailable
  | internalServerError
  | other (text : String)
deriving Repr, DecidableEq

/-- The except-clause at doc-drafter/main.py lines 192-196: 429, 503
and 500 are caught and retried; everything else falls to the generic
handler and is re-raised. -/
def ApiError.retryable : ApiError → Bool
  | .resourceExhausted => true
  | .serviceUnavailable => true
  | .internalServerError => true
  | .other _ => false

/-- `str(e)` for the error record a worker writes. -/
def ApiError.text : ApiError → String
  | .resourceExhausted => "429 Resource has been exhausted"
  | .serviceUnavailable => "503 Service Unavailable"
  | .internalServerError => "500 Internal Server Error"
  | .other t => t

/-- Outcome of one `model.generate_content` call. -/
inductive CallOutcome where
  | ok (text : String)
  | err (e : ApiError)
deriving Repr, DecidableEq

/-- Result of `generate_content_with_retry`: the returned text or the
re-raised exception, together with the number of calls made and the
backoff sleeps performed.  `exhausted` is the implicit `None` returned
when the while-loop condition is false from the start
(`max_retries = 0`). -/
inductive RetryResult where
  | success (text : String) (calls : Nat) (delays : List ℚ)
  | failure (e : ApiError) (calls : Nat) (delays : List ℚ)
  | exhausted (delays : List ℚ)
deriving Repr, DecidableEq

/-- The while-loop of `generate_content_with_retry` (doc-drafter
lines 186-210).  `r` is the `retries` variable; `fuel` bounds the
iteration count (the loop body always either returns, raises, or
increments `retries`, so `fuel = max_retries` suffices).  On the k-th
retryable failure with budget left, the sleep is
`2 ** retries + random.random()` evaluated after the increment,
i.e. `2^k + jit k`. -/
def retryAux (out : Nat → CallOutcome) (jit : Nat → ℚ) (maxR : Nat) :
    Nat → Nat → List ℚ → RetryResult
  | 0, _, delays => .exhausted delays
  | fuel + 1, r, delays =>
    if r < maxR then
      match out r with
      | .ok t => .success t (r + 1) delays
      | .err e =>
        if e.retryable then
          if maxR ≤ r + 1 then .failure e (r + 1) delays
          else retryAux out jit maxR fuel (r + 1)
                 (delays ++ [(2 : ℚ) ^ (r + 1) + jit (r + 1)])
        else .failure e (r + 1) delays
    else .exhausted delays

/-- `generate_content_with_retry(model, prompt, max_retries)` of
agents/doc-drafter/main.py lines 183-211 and
agents/report-consolidator/main.py lines 128-156 (the two definitions
are identical), with `retries` starting at 0. -/
def generate_content_with_retry (out : Nat → CallOutcome) (jit : Nat → ℚ)
    (max_retries : Nat) : RetryResult :=
  retryAux out jit max_retries max_retries 0 []

namespace QualityAnalyst

/-- agents/quality-analyst/main.py, the per-file model call of `main`
(lines 264-295): exactly one `model.generate_content` call, no retry
helper.  On success the feedback is `response.text` (stripped, with a
placeholder for an empty text); on ANY exception the agent appends a
"Model analysis failed" record and moves on.  The second component
counts the model calls made. -/
def model_call (out : Nat → CallOutcome) (file_path : String) :
    AnalysisResult × Nat :=
  match out 0 with
  | .ok t =>
    ({ file_path := file_path
       feedback := if t = "" then "No feedback from model." else t.trim }, 1)
  | .err e =>
    ({ file_path := file_path
       feedback := "Model analysis failed: " ++ e.text }, 1)

end QualityAnalyst

/-! ## Helper lemmas on the event machine -/

/-- Frame conditions of a single event: no event writes `total_tasks`;
an event raises `tasks_completed` by at most one, and only a success
commit does; no event other than the watcher touches the session-level
`status` or publishes. -/
lemma applyEvent_frame (rid : String) (d : ReviewDoc) (e : Event) :
    (applyEvent rid d e).1.total_tasks = d.total_tasks
    ∧ (applyEvent rid d e).1.tasks_completed.getD 0
        ≤ d.tasks_completed.getD 0 + (if e.isSuccess then 1 else 0)
    ∧ (e ≠ Event.watcher →
        (applyEvent rid d e).1.status = d.status ∧ (applyEvent rid d e).2 = none) := by
  cases e with
  | qualitySuccess sha rs =>
    refine ⟨?_, ?_, fun _ => ⟨?_, rfl⟩⟩ <;>
      simp only [applyEvent, QualityAnalyst.update_firestore_atomically,
        Event.isSuccess] <;> split <;> simp
  | qualityError sha msg =>
    refine ⟨?_, ?_, fun _ => ⟨?_, rfl⟩⟩ <;>
      simp only [applyEvent, QualityAnalyst.update_error_atomically,
        Event.isSuccess] <;> split <;> simp
  | docsSuccess sha rs =>
    refine ⟨?_, ?_, fun _ => ⟨?_, rfl⟩⟩ <;>
      simp only [applyEvent, DocDrafter.update_firestore_atomically,
        Event.isSuccess] <;> split <;> simp
  | docsError sha msg =>
    refine ⟨?_, ?_, fun _ => ⟨?_, rfl⟩⟩ <;>
      simp only [applyEvent, DocDrafter.update_error_atomically,
        Event.isSuccess] <;> split <;> simp
  | securitySuccess rs =>
    exact ⟨rfl, le_refl _, fun _ => ⟨rfl, rfl⟩⟩
  | securityError msg =>
    exact ⟨rfl, by simp [applyEvent, SecuritySpecialist.error_update], fun _ => ⟨rfl, rfl⟩⟩
  | watcher =>
    refine ⟨?_, ?_, fun h => absurd rfl h⟩ <;>
      simp only [applyEvent, ConsolidationTrigger.trigger_consolidation,
        Event.isSuccess] <;> split <;> simp

/-- Watcher invocation when the completion guard holds. -/
lemma applyEvent_watcher_pos (rid : String) (d : ReviewDoc)
    (h : ConsolidationTrigger.watcherCond d = true) :
    applyEvent rid d Event.watcher
      = ({ d with status := some "consolidating" },
         some { review_id := rid, pr_info := d.pr_info,
                full_data := ConsolidationTrigger.safe_data d }) := by
  simp [applyEvent, ConsolidationTrigger.trigger_consolidation, h]

/-- Watcher invocation when the completion guard fails: a pure no-op. -/
lemma applyEvent_watcher_neg (rid : String) (d : ReviewDoc)
    (h : ConsolidationTrigger.watcherCond d = false) :
    applyEvent rid d Event.watcher = (d, none) := by
  simp [applyEvent, ConsolidationTrigger.trigger_consolidation, h]

/-- A document whose `status` is not "pending" fails the guard. -/
lemma watcherCond_of_not_pending (d : ReviewDoc)
    (h : d.status.getD "" ≠ "pending") :
    ConsolidationTrigger.watcherCond d = false := by
  simp [ConsolidationTrigger.watcherCond, h]

/-- Once `status` is away from "pending", no event of the alphabet can
bring it back, so no later watcher invocation publishes. -/
lemma run_publish_zero (rid : String) (es : List Event) :
    ∀ d : ReviewDoc, d.status.getD "" ≠ "pending" → (run rid d es).2 = 0 := by
  induction es with
  | nil => intro d _; rfl
  | cons e es ih =>
    intro d h
    by_cases hw : e = Event.watcher
    · subst hw
      rw [show run rid d (Event.watcher :: es)
            = ((run rid (applyEvent rid d Event.watcher).1 es).1,
               (if (applyEvent rid d Event.watcher).2.isSome then 1 else 0)
                 + (run rid (applyEvent rid d Event.watcher).1 es).2) from rfl]
      rw [applyEvent_watcher_neg rid d (watcherCond_of_not_pending d h)]
      simpa using ih d h
    · have hfr := (applyEvent_frame rid d e).2.2 hw
      rw [show run rid d (e :: es)
            = ((run rid (applyEvent rid d e).1 es).1,
               (if (applyEvent rid d e).2.isSome then 1 else 0)
                 + (run rid (applyEvent rid d e).1 es).2) from rfl]
      rw [hfr.2]
      have : (applyEvent rid d e).1.status.getD "" ≠ "pending" := by
        rw [hfr.1]; exact h
      simpa using ih _ this

/-- Over any run, at most one consolidation message is ever published:
the flip moves `status` to "consolidating" and nothing in the alphabet
restores "pending". -/
lemma run_publish_le_one (rid : String) (es : List Event) :
    ∀ d : ReviewDoc, (run rid d es).2 ≤ 1 := by
  induction es with
  | nil => intro d; exact Nat.zero_le 1
  | cons e es ih =>
    intro d
    by_cases hw : e = Event.watcher
    · subst hw
      by_cases hc : ConsolidationTrigger.watcherCond d = true
      · rw [show run rid d (Event.watcher :: es)
              = ((run rid (applyEvent rid d Event.watcher).1 es).1,
                 (if (applyEvent rid d Event.watcher).2.isSome then 1 else 0)
                   + (run rid (applyEvent rid d Event.watcher).1 es).2) from rfl]
        rw [applyEvent_watcher_pos rid d hc]
        have hz : (run rid ({ d with status := some "consolidating"} : ReviewDoc) es).2 = 0 :=
          run_publish_zero rid es _ (by simp)
        simp [hz]
      · rw [show run rid d (Event.watcher :: es)
              = ((run rid (applyEvent rid d Event.watcher).1 es).1,
                 (if (applyEvent rid d Event.watcher).2.isSome then 1 else 0)
                   + (run rid (applyEvent rid d Event.watcher).1 es).2) from rfl]
        rw [applyEvent_watcher_neg rid d (Bool.not_eq_true _ ▸ hc)]
        simpa using ih d
    · have hfr := (applyEvent_frame rid d e).2.2 hw
      rw [show run rid d (e :: es)
            = ((run rid (applyEvent rid d e).1 es).1,
               (if (applyEvent rid d e).2.isSome then 1 else 0)
                 + (run rid (applyEvent rid d e).1 es).2) from rfl]
      rw [hfr.2]
      simpa using ih _

/-- Per-domain success-commit predicates, used to count deliveries. -/
def Event.isQualitySuccess : Event → Bool
  | .qualitySuccess _ _ => true
  | _ => false

/-- Docs success-commit predicate. -/
def Event.isDocsSuccess : Event → Bool
  | .docsSuccess _ _ => true
  | _ => false

/-- Security success-commit predicate. -/
def Event.isSecuritySuccess : Event → Bool
  | .securitySuccess _ => true
  | _ => false

/-- `total_tasks` is fixed for the whole run: no event writes it. -/
lemma run_total_tasks (rid : String) (es : List Event) :
    ∀ d : ReviewDoc, (run rid d es).1.total_tasks = d.total_tasks := by
  induction es with
  | nil => intro d; rfl
  | cons e es ih =>
    intro d
    rw [show (run rid d (e :: es)).1 = (run rid (applyEvent rid d e).1 es).1 from rfl]
    rw [ih _, (applyEvent_frame rid d e).1]

/-- `tasks_completed` grows by at most the number of success commits in
the run. -/
lemma run_tc_bound (rid : String) (es : List Event) :
    ∀ d : ReviewDoc,
      (run rid d es).1.tasks_completed.getD 0
        ≤ d.tasks_completed.getD 0 + es.countP Event.isSuccess := by
  induction es with
  | nil =>
    intro d
    rw [List.countP_nil]
    exact Nat.le_add_right _ 0
  | cons e es ih =>
    intro d
    rw [show (run rid d (e :: es)).1 = (run rid (applyEvent rid d e).1 es).1 from rfl]
    have h1 := ih (applyEvent rid d e).1
    have h2 := (applyEvent_frame rid d e).2.1
    rw [List.countP_cons]
    by_cases hs : Event.isSuccess e
    · rw [if_pos hs] at h2 ⊢
      omega
    · rw [if_neg hs] at h2 ⊢
      omega

/-- One event is a success commit exactly when it is a quality, docs,
or security success. -/
lemma isSuccess_split (e : Event) :
    (if Event.isSuccess e then 1 else 0)
      = (if Event.isQualitySuccess e then 1 else 0)
        + (if Event.isDocsSuccess e then 1 else 0)
        + (if Event.isSecuritySuccess e then 1 else 0) := by
  cases e <;> rfl

/-- A success commit is a quality, docs, or security success. -/
lemma countP_isSuccess_decomp (es : List Event) :
    es.countP Event.isSuccess
      = es.countP Event.isQualitySuccess
        + es.countP Event.isDocsSuccess
        + es.countP Event.isSecuritySuccess := by
  induction es with
  | nil => rfl
  | cons e es ih =>
    rw [List.countP_cons, List.countP_cons, List.countP_cons, List.countP_cons,
      ih, isSuccess_split e]
    omega

/-! ## Concrete example inputs -/

/-- A freshly created session pinned to commit "abc", exactly as the
orchestrator's upsert produces it for an empty store. -/
def exDocAbc : ReviewDoc :=
  PROrchestrator.set_merge none { PRInfo.empty with head_sha := some "abc" }

/-- The same session after all three domains committed. -/
def exDocReady : ReviewDoc := { exDocAbc with tasks_completed := some 3 }

/-- The same session after the watcher's flip. -/
def exDocConsolidating : ReviewDoc := { exDocAbc with status := some "consolidating" }

/-- A session document with no `total_tasks` field at all. -/
def exDocNoTotal : ReviewDoc := { ReviewDoc.empty with status := some "pending" }

/-! ## Claim theorems -/

/-- C1: over every sequence of domain-commit mutations and watcher
invocations against one session, at most one consolidation message is
ever published; the invocation that observes
`tasks_completed >= total_tasks` with `status == "pending"` flips the
status to "consolidating" and publishes exactly one message, and every
invocation that does not observe the guard leaves the document
untouched and publishes nothing. -/
theorem watcher_triggers_consolidation_exactly_once :
    (∀ (rid : String) (d : ReviewDoc) (es : List Event), (run rid d es).2 ≤ 1)
    ∧ (∀ (rid : String) (d : ReviewDoc),
        ConsolidationTrigger.watcherCond d = true →
          ConsolidationTrigger.trigger_consolidation rid (some d)
            = (some { d with status := some "consolidating" },
               some { review_id := rid, pr_info := d.pr_info,
                      full_data := ConsolidationTrigger.safe_data d }))
    ∧ (∀ (rid : String) (d : ReviewDoc),
        ConsolidationTrigger.watcherCond d = false →
          ConsolidationTrigger.trigger_consolidation rid (some d) = (some d, none)) := by
  refine ⟨fun rid d es => run_publish_le_one rid es d,
    fun rid d h => ?_, fun rid d h => ?_⟩
  · simp [ConsolidationTrigger.trigger_consolidation, h]
  · simp [ConsolidationTrigger.trigger_consolidation, h]

/-- Witness for C1 at a concrete session: duplicate watcher invocations
after three commits publish once, a ready pending session flips, and a
consolidating session is a no-op. -/
theorem watcher_triggers_consolidation_exactly_once_witness :
    (run "octo_repo_7" exDocReady [Event.watcher, Event.watcher]).2 ≤ 1
    ∧ ConsolidationTrigger.trigger_consolidation "octo_repo_7" (some exDocReady)
        = (some { exDocReady with status := some "consolidating" },
           some { review_id := "octo_repo_7", pr_info := exDocReady.pr_info,
                  full_data := ConsolidationTrigger.safe_data exDocReady })
    ∧ ConsolidationTrigger.trigger_consolidation "octo_repo_7" (some exDocConsolidating)
        = (some exDocConsolidating, none) :=
  ⟨watcher_triggers_consolidation_exactly_once.1 "octo_repo_7" exDocReady
      [Event.watcher, Event.watcher],
   watcher_triggers_consolidation_exactly_once.2.1 "octo_repo_7" exDocReady (by decide),
   watcher_triggers_consolidation_exactly_once.2.2 "octo_repo_7" exDocConsolidating
      (by decide)⟩

/-- C10: for a session document whose `total_tasks` field is absent,
the watcher's `-1` default makes the completion guard hold for every
`tasks_completed` value whenever `status` is "pending", so the watcher
flips the session to "consolidating" and publishes a consolidation
message even though no tasks were dispatched. -/
theorem missing_total_tasks_triggers_consolidation :
    ∀ (rid : String) (d : ReviewDoc),
      d.total_tasks = none →
      d.status.getD "" = "pending" →
      ConsolidationTrigger.trigger_consolidation rid (some d)
        = (some { d with status := some "consolidating" },
           some { review_id := rid, pr_info := d.pr_info,
                  full_data := ConsolidationTrigger.safe_data d }) := by
  intro rid d h1 h2
  have hc : ConsolidationTrigger.watcherCond d = true := by
    have hle : ((-1 : Int) ≤ (d.tasks_completed.getD 0 : Int)) :=
      le_trans (by norm_num) (Int.natCast_nonneg _)
    simp [ConsolidationTrigger.watcherCond, h1, h2, hle]
  simp [ConsolidationTrigger.trigger_consolidation, hc]

/-- Witness for C10: a pending document with no fields beyond `status`
(in particular `tasks_completed` defaulting to 0) is flipped and a
message is published. -/
theorem missing_total_tasks_triggers_consolidation_witness :
    ConsolidationTrigger.trigger_consolidation "octo_repo_7" (some exDocNoTotal)
      = (some { exDocNoTotal with status := some "consolidating" },
         some { review_id := "octo_repo_7", pr_info := exDocNoTotal.pr_info,
                full_data := ConsolidationTrigger.safe_data exDocNoTotal }) :=
  missing_total_tasks_triggers_consolidation "octo_repo_7" exDocNoTotal rfl rfl

/-- C9: a webhook whose action is outside {opened, reopened,
synchronize} is accepted as a non-error no-op — 204, no session write,
no messages; an allowed action upserts the session (status "pending",
`total_tasks = 3`) and publishes exactly three domain messages. -/
theorem webhook_action_filter :
    (∀ (p : PROrchestrator.WebhookPayload) (store : Option ReviewDoc),
        p.action ∉ PROrchestrator.allowed_actions →
          PROrchestrator.receive_webhook p store = .ok (store, [], 204))
    ∧ (∀ (p : PROrchestrator.WebhookPayload) (store : Option ReviewDoc) (repo : String),
        p.action ∈ PROrchestrator.allowed_actions →
        p.repo_full_name = some repo →
          PROrchestrator.receive_webhook p store
            = .ok (some (PROrchestrator.set_merge store (PROrchestrator.extract_pr_info p)),
                [{ topic := "code-review-tasks",
                   review_id := PROrchestrator.review_id repo p.number,
                   pr_info := PROrchestrator.extract_pr_info p },
                 { topic := "security-review-tasks",
                   review_id := PROrchestrator.review_id repo p.number,
                   pr_info := PROrchestrator.extract_pr_info p },
                 { topic := "docs-review-tasks",
                   review_id := PROrchestrator.review_id repo p.number,
                   pr_info := PROrchestrator.extract_pr_info p }], 200)
          ∧ (PROrchestrator.set_merge store (PROrchestrator.extract_pr_info p)).status
              = some "pending"
          ∧ (PROrchestrator.set_merge store (PROrchestrator.extract_pr_info p)).total_tasks
              = some 3) := by
  constructor
  · intro p store h
    simp [PROrchestrator.receive_webhook, h]
  · intro p store repo h1 h2
    refine ⟨?_, rfl, rfl⟩
    simp [PROrchestrator.receive_webhook, h1, h2]

/-- An ignored webhook event (`action = "closed"`). -/
def exPayloadClosed : PROrchestrator.WebhookPayload :=
  { action := some "closed", number := some 7, repo_full_name := some "octo/repo",
    html_url := none, head_sha := some "abc", base_sha := some "bbb",
    head_ref := none, base_ref := none }

/-- A qualifying webhook event (`action = "opened"`). -/
def exPayloadOpened : PROrchestrator.WebhookPayload :=
  { exPayloadClosed with action := some "opened" }

/-- Witness for C9: `action = "closed"` is a 204 no-op with no
messages; `action = "opened"` creates the session and publishes the
three domain messages. -/
theorem webhook_action_filter_witness :
    PROrchestrator.receive_webhook exPayloadClosed none = .ok (none, [], 204)
    ∧ (PROrchestrator.receive_webhook exPayloadOpened none
        = .ok (some (PROrchestrator.set_merge none (PROrchestrator.extract_pr_info exPayloadOpened)),
            [{ topic := "code-review-tasks",
               review_id := PROrchestrator.review_id "octo/repo" exPayloadOpened.number,
               pr_info := PROrchestrator.extract_pr_info exPayloadOpened },
             { topic := "security-review-tasks",
               review_id := PROrchestrator.review_id "octo/repo" exPayloadOpened.number,
               pr_info := PROrchestrator.extract_pr_info exPayloadOpened },
             { topic := "docs-review-tasks",
               review_id := PROrchestrator.review_id "octo/repo" exPayloadOpened.number,
               pr_info := PROrchestrator.extract_pr_info exPayloadOpened }], 200)
        ∧ (PROrchestrator.set_merge none (PROrchestrator.extract_pr_info exPayloadOpened)).status
            = some "pending"
        ∧ (PROrchestrator.set_merge none (PROrchestrator.extract_pr_info exPayloadOpened)).total_tasks
            = some 3) :=
  ⟨webhook_action_filter.1 exPayloadClosed none (by decide),
   webhook_action_filter.2 exPayloadOpened none "octo/repo" (by decide) rfl⟩

/-- C4: every fenced commit — the quality and docs agents' success and
error commits and the consolidator's final report and final error
commits — is a pure no-op when the expected sha differs from the stored
`pr_info.head_sha`, and applies exactly its advertised mutation when
they are equal. -/
theorem conditional_commit_noop_or_atomic :
    ∀ (d : ReviewDoc) (sha : Option String) (rs : List AnalysisResult)
      (msg rep : String),
      (d.currentSha ≠ sha →
          QualityAnalyst.update_firestore_atomically d sha rs = d
        ∧ QualityAnalyst.update_error_atomically d sha msg = d
        ∧ DocDrafter.update_firestore_atomically d sha rs = d
        ∧ DocDrafter.update_error_atomically d sha msg = d
        ∧ ReportConsolidator.update_final_report_atomically d sha rep = d
        ∧ ReportConsolidator.update_final_error_atomically d sha msg = d)
      ∧ (d.currentSha = sha →
          QualityAnalyst.update_firestore_atomically d sha rs
            = { d with quality_analysis_results := some rs,
                       quality_status := some "complete",
                       tasks_completed := some (d.tasks_completed.getD 0 + 1) }
        ∧ QualityAnalyst.update_error_atomically d sha msg
            = { d with quality_status := some "error", error_message := some msg }
        ∧ DocDrafter.update_firestore_atomically d sha rs
            = { d with docs_analysis_results := some rs,
                       docs_status := some "complete",
                       tasks_completed := some (d.tasks_completed.getD 0 + 1) }
        ∧ DocDrafter.update_error_atomically d sha msg
            = { d with docs_status := some "error", docs_error := some msg }
        ∧ ReportConsolidator.update_final_report_atomically d sha rep
            = { d with status := some "complete", final_report := some rep }
        ∧ ReportConsolidator.update_final_error_atomically d sha msg
            = { d with status := some "error",
                       final_consolidator_error := some msg }) := by
  intro d sha rs msg rep
  constructor
  · intro h
    refine ⟨?_, ?_, ?_, ?_, ?_, ?_⟩ <;>
      simp [QualityAnalyst.update_firestore_atomically,
        QualityAnalyst.update_error_atomically,
        DocDrafter.update_firestore_atomically,
        DocDrafter.update_error_atomically,
        ReportConsolidator.update_final_report_atomically,
        ReportConsolidator.update_final_error_atomically, h]
  · intro h
    refine ⟨?_, ?_, ?_, ?_, ?_, ?_⟩ <;>
      simp [QualityAnalyst.update_firestore_atomically,
        QualityAnalyst.update_error_atomically,
        DocDrafter.update_firestore_atomically,
        DocDrafter.update_error_atomically,
        ReportConsolidator.update_final_report_atomically,
        ReportConsolidator.update_final_error_atomically, h]

/-- Witness for C4 at a concrete document pinned to "abc": commits
expecting "zzz" are no-ops; commits expecting "abc" apply their
mutation. -/
theorem conditional_commit_noop_or_atomic_witness :
    (QualityAnalyst.update_firestore_atomically exDocAbc (some "zzz") [] = exDocAbc
      ∧ QualityAnalyst.update_error_atomically exDocAbc (some "zzz") "boom" = exDocAbc
      ∧ DocDrafter.update_firestore_atomically exDocAbc (some "zzz") [] = exDocAbc
      ∧ DocDrafter.update_error_atomically exDocAbc (some "zzz") "boom" = exDocAbc
      ∧ ReportConsolidator.update_final_report_atomically exDocAbc (some "zzz") "rep" = exDocAbc
      ∧ ReportConsolidator.update_final_error_atomically exDocAbc (some "zzz") "boom" = exDocAbc)
    ∧ (QualityAnalyst.update_firestore_atomically exDocAbc (some "abc") []
          = { exDocAbc with quality_analysis_results := some [],
                            quality_status := some "complete",
                            tasks_completed := some (exDocAbc.tasks_completed.getD 0 + 1) }
      ∧ QualityAnalyst.update_error_atomically exDocAbc (some "abc") "boom"
          = { exDocAbc with quality_status := some "error", error_message := some "boom" }
      ∧ DocDrafter.update_firestore_atomically exDocAbc (some "abc") []
          = { exDocAbc with docs_analysis_results := some [],
                            docs_status := some "complete",
                            tasks_completed := some (exDocAbc.tasks_completed.getD 0 + 1) }
      ∧ DocDrafter.update_error_atomically exDocAbc (some "abc") "boom"
          = { exDocAbc with docs_status := some "error", docs_error := some "boom" }
      ∧ ReportConsolidator.update_final_report_atomically exDocAbc (some "abc") "rep"
          = { exDocAbc with status := some "complete", final_report := some "rep" }
      ∧ ReportConsolidator.update_final_error_atomically exDocAbc (some "abc") "boom"
          = { exDocAbc with status := some "error",
                            final_consolidator_error := some "boom" }) :=
  ⟨(conditional_commit_noop_or_atomic exDocAbc (some "zzz") [] "boom" "rep").1 (by decide),
   (conditional_commit_noop_or_atomic exDocAbc (some "abc") [] "boom" "rep").2 (by decide)⟩

/-- A session re-ingested under the new revision "def". -/
def exDocDef : ReviewDoc :=
  PROrchestrator.set_merge none { PRInfo.empty with head_sha := some "def" }

/-- Counterexample to C2: the session has been replaced by revision
"def", yet the security worker's commit — issued by a worker that was
dispatched for the old revision "abc" — still mutates the document
(marks security complete, bumps the counter), because the security
agent's update carries no fence at all. -/
theorem stale_security_commit_mutates_doc :
    exDocDef.currentSha = some "def"
    ∧ some "abc" ≠ exDocDef.currentSha
    ∧ SecuritySpecialist.success_update exDocDef
        [{ file_path := "N/A", feedback := "stale result from revision abc" }]
        ≠ exDocDef
    ∧ (SecuritySpecialist.success_update exDocDef
        [{ file_path := "N/A", feedback := "stale result from revision abc" }]).security_status
        = some "complete"
    ∧ (SecuritySpecialist.success_update exDocDef
        [{ file_path := "N/A", feedback := "stale result from revision abc" }]).tasks_completed
        = some 1 := by
  refine ⟨rfl, by decide, by decide, rfl, rfl⟩

/-- C2 (amended): after re-ingestion replaces `pr_info.head_sha`, the
quality and docs agents' commits (success and error) carrying the old
sha are rejected as stale and leave the document unmutated, and their
commits carrying the new sha succeed; the security agent's commit,
however, is unfenced and is applied whatever sha its task was
dispatched for. -/
theorem stale_rejection_fenced_domains_only :
    ∀ (d : ReviewDoc) (oldSha : Option String) (rs : List AnalysisResult) (msg : String),
      (d.currentSha ≠ oldSha →
          QualityAnalyst.update_firestore_atomically d oldSha rs = d
        ∧ QualityAnalyst.update_error_atomically d oldSha msg = d
        ∧ DocDrafter.update_firestore_atomically d oldSha rs = d
        ∧ DocDrafter.update_error_atomically d oldSha msg = d)
      ∧ QualityAnalyst.update_firestore_atomically d d.currentSha rs
          = { d with quality_analysis_results := some rs,
                     quality_status := some "complete",
                     tasks_completed := some (d.tasks_completed.getD 0 + 1) }
      ∧ DocDrafter.update_firestore_atomically d d.currentSha rs
          = { d with docs_analysis_results := some rs,
                     docs_status := some "complete",
                     tasks_completed := some (d.tasks_completed.getD 0 + 1) }
      ∧ SecuritySpecialist.success_update d rs
          = { d with security_analysis_results := some rs,
                     security_status := some "complete",
                     tasks_completed := some (d.tasks_completed.getD 0 + 1) } := by
  intro d oldSha rs msg
  constructor
  · intro h
    refine ⟨?_, ?_, ?_, ?_⟩ <;>
      simp [QualityAnalyst.update_firestore_atomically,
        QualityAnalyst.update_error_atomically,
        DocDrafter.update_firestore_atomically,
        DocDrafter.update_error_atomically, h]
  · refine ⟨?_, ?_, rfl⟩ <;>
      simp [QualityAnalyst.update_firestore_atomically,
        DocDrafter.update_firestore_atomically]

/-- Witness for C2 (amended) on the re-ingested session: stale quality
and docs commits for "abc" are dropped, and the fenced commits under
the stored sha succeed. -/
theorem stale_rejection_fenced_domains_only_witness :
    (QualityAnalyst.update_firestore_atomically exDocDef (some "abc") [] = exDocDef
      ∧ QualityAnalyst.update_error_atomically exDocDef (some "abc") "boom" = exDocDef
      ∧ DocDrafter.update_firestore_atomically exDocDef (some "abc") [] = exDocDef
      ∧ DocDrafter.update_error_atomically exDocDef (some "abc") "boom" = exDocDef)
    ∧ QualityAnalyst.update_firestore_atomically exDocDef exDocDef.currentSha []
        = { exDocDef with quality_analysis_results := some [],
                          quality_status := some "complete",
                          tasks_completed := some (exDocDef.tasks_completed.getD 0 + 1) } :=
  ⟨(stale_rejection_fenced_domains_only exDocDef (some "abc") [] "boom").1 (by decide),
   (stale_rejection_fenced_domains_only exDocDef exDocDef.currentSha [] "boom").2.1⟩

/-- Counterexample to C3: with the session pinned to "abc" and
`total_tasks = 3`, four duplicate deliveries of the quality success
commit (all carrying the matching sha) drive `tasks_completed` to 4,
above `total_tasks`. -/
theorem duplicate_commits_exceed_total_tasks :
    (run "octo_repo_7" exDocAbc
        [Event.qualitySuccess (some "abc") [],
         Event.qualitySuccess (some "abc") [],
         Event.qualitySuccess (some "abc") [],
         Event.qualitySuccess (some "abc") []]).1.tasks_completed = some 4
    ∧ (run "octo_repo_7" exDocAbc
        [Event.qualitySuccess (some "abc") [],
         Event.qualitySuccess (some "abc") [],
         Event.qualitySuccess (some "abc") [],
         Event.qualitySuccess (some "abc") []]).1.total_tasks = some 3
    ∧ ¬((4 : Int) ≤ 3) := by
  refine ⟨by decide, by decide, by decide⟩

/-- C3 (amended): starting from a freshly created session
(`tasks_completed = 0`, `total_tasks = 3`), `tasks_completed` never
exceeds `total_tasks` as long as each domain's success commit is
delivered at most once; nothing in the code caps the counter itself,
so duplicate deliveries can exceed the total. -/
theorem tasks_completed_bounded_without_duplicates :
    ∀ (rid : String) (d : ReviewDoc) (es : List Event),
      d.tasks_completed = some 0 →
      d.total_tasks = some 3 →
      es.countP Event.isQualitySuccess ≤ 1 →
      es.countP Event.isDocsSuccess ≤ 1 →
      es.countP Event.isSecuritySuccess ≤ 1 →
      ((run rid d es).1.tasks_completed.getD 0 : Int)
        ≤ (run rid d es).1.total_tasks.getD (-1) := by
  intro rid d es h0 h3 hq hd hs
  have htc := run_tc_bound rid es d
  rw [h0, countP_isSuccess_decomp] at htc
  have htt := run_total_tasks rid es d
  rw [htt, h3]
  simp only [Option.getD_some] at htc ⊢
  omega

/-- Witness for C3 (amended): one commit per domain against a fresh
session ends with the counter at the total, not above it. -/
theorem tasks_completed_bounded_without_duplicates_witness :
    ((run "octo_repo_7" exDocAbc
        [Event.qualitySuccess (some "abc") [],
         Event.securitySuccess [],
         Event.docsSuccess (some "abc") []]).1.tasks_completed.getD 0 : Int)
      ≤ (run "octo_repo_7" exDocAbc
        [Event.qualitySuccess (some "abc") [],
         Event.securitySuccess [],
         Event.docsSuccess (some "abc") []]).1.total_tasks.getD (-1) :=
  tasks_completed_bounded_without_duplicates "octo_repo_7" exDocAbc
    [Event.qualitySuccess (some "abc") [],
     Event.securitySuccess [],
     Event.docsSuccess (some "abc") []]
    rfl rfl (by decide) (by decide) (by decide)

/-- Counterexample to C5: on the session pinned to "abc" with the
counter at 0, each agent's error commit passes its fence (or, for
security, runs unconditionally), records the error state — and leaves
`tasks_completed` at 0 instead of incrementing it. -/
theorem error_commit_does_not_increment :
    exDocAbc.tasks_completed = some 0
    ∧ (QualityAnalyst.update_error_atomically exDocAbc (some "abc") "boom").quality_status
        = some "error"
    ∧ (QualityAnalyst.update_error_atomically exDocAbc (some "abc") "boom").tasks_completed
        = some 0
    ∧ (DocDrafter.update_error_atomically exDocAbc (some "abc") "boom").docs_status
        = some "error"
    ∧ (DocDrafter.update_error_atomically exDocAbc (some "abc") "boom").tasks_completed
        = some 0
    ∧ (SecuritySpecialist.error_update exDocAbc "boom").security_status = some "error"
    ∧ (SecuritySpecialist.error_update exDocAbc "boom").tasks_completed = some 0
    ∧ some 0 ≠ some (0 + 1 : Nat) := by
  refine ⟨rfl, by decide, by decide, by decide, by decide, rfl, rfl, by decide⟩

/-- C5 (amended): a domain's fenced error commit records
`domain_status = "error"` together with the error text, and mutates
nothing else — in particular it does NOT increment `tasks_completed`,
so an errored domain does not count toward the total. -/
theorem error_commit_records_error_only :
    ∀ (d : ReviewDoc) (sha : Option String) (msg : String),
      d.currentSha = sha →
        QualityAnalyst.update_error_atomically d sha msg
          = { d with quality_status := some "error", error_message := some msg }
        ∧ DocDrafter.update_error_atomically d sha msg
          = { d with docs_status := some "error", docs_error := some msg }
        ∧ SecuritySpecialist.error_update d msg
          = { d with security_status := some "error", error_message := some msg }
        ∧ (QualityAnalyst.update_error_atomically d sha msg).tasks_completed
          = d.tasks_completed
        ∧ (DocDrafter.update_error_atomically d sha msg).tasks_completed
          = d.tasks_completed
        ∧ (SecuritySpecialist.error_update d msg).tasks_completed
          = d.tasks_completed := by
  intro d sha msg h
  refine ⟨?_, ?_, rfl, ?_, ?_, rfl⟩ <;>
    simp [QualityAnalyst.update_error_atomically,
      DocDrafter.update_error_atomically, h]

/-- Witness for C5 (amended) at the concrete "abc" session. -/
theorem error_commit_records_error_only_witness :
    QualityAnalyst.update_error_atomically exDocAbc (some "abc") "boom"
      = { exDocAbc with quality_status := some "error", error_message := some "boom" }
    ∧ DocDrafter.update_error_atomically exDocAbc (some "abc") "boom"
      = { exDocAbc with docs_status := some "error", docs_error := some "boom" }
    ∧ SecuritySpecialist.error_update exDocAbc "boom"
      = { exDocAbc with security_status := some "error", error_message := some "boom" }
    ∧ (QualityAnalyst.update_error_atomically exDocAbc (some "abc") "boom").tasks_completed
      = exDocAbc.tasks_completed
    ∧ (DocDrafter.update_error_atomically exDocAbc (some "abc") "boom").tasks_completed
      = exDocAbc.tasks_completed
    ∧ (SecuritySpecialist.error_update exDocAbc "boom").tasks_completed
      = exDocAbc.tasks_completed :=
  error_commit_records_error_only exDocAbc (some "abc") "boom" rfl

/-- A session already finished: terminal "complete" with a published
final report, still pinned to "abc". -/
def exDocComplete : ReviewDoc :=
  { exDocReady with status := some "complete", final_report := some "old report" }

/-- Counterexample to C6: the session is terminal ("complete"), yet a
duplicate consolidation run with the SAME head_sha passes the
consolidator's sha-only fence: its error path flips the status from
"complete" back to "error", and its success path rewrites
`final_report`. -/
theorem duplicate_consolidation_rewrites_terminal_state :
    exDocComplete.status = some "complete"
    ∧ (ReportConsolidator.update_final_error_atomically exDocComplete (some "abc") "boom").status
        = some "error"
    ∧ exDocComplete.final_report = some "old report"
    ∧ (ReportConsolidator.update_final_report_atomically exDocComplete (some "abc")
        "new report").final_report = some "new report"
    ∧ ReportConsolidator.update_final_report_atomically exDocComplete (some "abc") "new report"
        ≠ exDocComplete := by
  refine ⟨rfl, by decide, rfl, by decide, by decide⟩

/-- C6 (amended): within the commit/watcher alphabet, `status` only
moves forward — worker commits never change it and the watcher only
flips "pending" to "consolidating" — but the consolidator's final
commits are fenced solely on `head_sha`, so a duplicate consolidation
delivery carrying the same sha is re-applied whatever the current
status: it can rewrite `final_report` and move status between
"complete" and "error". -/
theorem status_forward_except_consolidator_rewrite :
    (∀ (rid : String) (d : ReviewDoc) (e : Event), e ≠ Event.watcher →
        (applyEvent rid d e).1.status = d.status)
    ∧ (∀ (rid : String) (d : ReviewDoc),
        (applyEvent rid d Event.watcher).1.status = d.status
        ∨ (d.status.getD "" = "pending"
            ∧ (applyEvent rid d Event.watcher).1.status = some "consolidating"))
    ∧ (∀ (d : ReviewDoc) (sha : Option String) (rep msg : String),
        d.currentSha = sha →
          ReportConsolidator.update_final_report_atomically d sha rep
            = { d with status := some "complete", final_report := some rep }
          ∧ ReportConsolidator.update_final_error_atomically d sha msg
            = { d with status := some "error",
                       final_consolidator_error := some msg }) := by
  refine ⟨fun rid d e h => ((applyEvent_frame rid d e).2.2 h).1,
    fun rid d => ?_, fun d sha rep msg h => ?_⟩
  · by_cases hc : ConsolidationTrigger.watcherCond d = true
    · right
      constructor
      · have := hc
        simp only [ConsolidationTrigger.watcherCond, Bool.and_eq_true,
          decide_eq_true_eq, beq_iff_eq] at this
        exact this.2
      · rw [applyEvent_watcher_pos rid d hc]
    · left
      rw [applyEvent_watcher_neg rid d (Bool.not_eq_true _ ▸ hc)]
  · constructor <;>
      simp [ReportConsolidator.update_final_report_atomically,
        ReportConsolidator.update_final_error_atomically, h]

/-- Witness for C6 (amended): a stale quality commit leaves status
alone; the watcher on the finished session leaves status alone; the
consolidator's duplicate error commit on the complete session flips it
to "error". -/
theorem status_forward_except_consolidator_rewrite_witness :
    (applyEvent "octo_repo_7" exDocComplete (Event.qualitySuccess (some "abc") [])).1.status
        = exDocComplete.status
    ∧ ((applyEvent "octo_repo_7" exDocComplete Event.watcher).1.status = exDocComplete.status
        ∨ (exDocComplete.status.getD "" = "pending"
            ∧ (applyEvent "octo_repo_7" exDocComplete Event.watcher).1.status
                = some "consolidating"))
    ∧ (ReportConsolidator.update_final_report_atomically exDocComplete (some "abc") "new report"
          = { exDocComplete with status := some "complete", final_report := some "new report" }
        ∧ ReportConsolidator.update_final_error_atomically exDocComplete (some "abc") "boom"
          = { exDocComplete with status := some "error",
                                 final_consolidator_error := some "boom" }) :=
  ⟨status_forward_except_consolidator_rewrite.1 "octo_repo_7" exDocComplete
      (Event.qualitySuccess (some "abc") []) (by decide),
   status_forward_except_consolidator_rewrite.2.1 "octo_repo_7" exDocComplete,
   status_forward_except_consolidator_rewrite.2.2 exDocComplete (some "abc")
      "new report" "boom" rfl⟩

/-- A prior-revision session carrying written domain results and error
fields, as it stands just before a new revision is ingested. -/
def exDocWithResults : ReviewDoc :=
  { exDocAbc with
    quality_analysis_results := some [{ file_path := "a.py", feedback := "old feedback" }],
    docs_error := some "old docs error",
    final_report := some "old report" }

/-- A re-ingestion webhook for the same PR at new revision "def". -/
def exPayloadSync : PROrchestrator.WebhookPayload :=
  { action := some "synchronize", number := some 7, repo_full_name := some "octo/repo",
    html_url := none, head_sha := some "def", base_sha := some "bbb",
    head_ref := none, base_ref := none }

/-- Counterexample to C7: re-ingesting revision "def" over a session
holding revision-"abc" results resets status and counters — but the
previously written `quality_analysis_results`, `docs_error` and
`final_report` survive the `merge=True` upsert instead of being
reset. -/
theorem create_or_replace_keeps_old_results :
    PROrchestrator.receive_webhook exPayloadSync (some exDocWithResults)
      = .ok (some (PROrchestrator.set_merge (some exDocWithResults)
              (PROrchestrator.extract_pr_info exPayloadSync)),
          [{ topic := "code-review-tasks",
             review_id := PROrchestrator.review_id "octo/repo" (some 7),
             pr_info := PROrchestrator.extract_pr_info exPayloadSync },
           { topic := "security-review-tasks",
             review_id := PROrchestrator.review_id "octo/repo" (some 7),
             pr_info := PROrchestrator.extract_pr_info exPayloadSync },
           { topic := "docs-review-tasks",
             review_id := PROrchestrator.review_id "octo/repo" (some 7),
             pr_info := PROrchestrator.extract_pr_info exPayloadSync }], 200)
    ∧ (PROrchestrator.set_merge (some exDocWithResults)
        (PROrchestrator.extract_pr_info exPayloadSync)).quality_analysis_results
        = some [{ file_path := "a.py", feedback := "old feedback" }]
    ∧ (PROrchestrator.set_merge (some exDocWithResults)
        (PROrchestrator.extract_pr_info exPayloadSync)).docs_error
        = some "old docs error"
    ∧ (PROrchestrator.set_merge (some exDocWithResults)
        (PROrchestrator.extract_pr_info exPayloadSync)).final_report
        = some "old report"
    ∧ some [({ file_path := "a.py", feedback := "old feedback" } : AnalysisResult)]
        ≠ (none : Option (List AnalysisResult)) := by
  refine ⟨rfl, rfl, rfl, rfl, by decide⟩

/-- C7 (amended): the upsert is an idempotent merge, not a replace: it
sets `status = "pending"`, resets `tasks_completed` to 0, fixes
`total_tasks = 3`, resets the three per-domain status fields and
replaces `pr_info`; every other field — the per-domain analysis
results, the error fields and `final_report` — keeps whatever value the
prior revision left there. -/
theorem create_or_replace_resets_counters_not_results :
    ∀ (store : Option ReviewDoc) (info : PRInfo),
      (PROrchestrator.set_merge store info).status = some "pending"
      ∧ (PROrchestrator.set_merge store info).pr_info = some info
      ∧ (PROrchestrator.set_merge store info).tasks_completed = some 0
      ∧ (PROrchestrator.set_merge store info).total_tasks = some 3
      ∧ (PROrchestrator.set_merge store info).quality_status = some "pending"
      ∧ (PROrchestrator.set_merge store info).security_status = some "pending"
      ∧ (PROrchestrator.set_merge store info).docs_status = some "pending"
      ∧ (PROrchestrator.set_merge store info).quality_analysis_results
          = (store.getD ReviewDoc.empty).quality_analysis_results
      ∧ (PROrchestrator.set_merge store info).security_analysis_results
          = (store.getD ReviewDoc.empty).security_analysis_results
      ∧ (PROrchestrator.set_merge store info).docs_analysis_results
          = (store.getD ReviewDoc.empty).docs_analysis_results
      ∧ (PROrchestrator.set_merge store info).quality_error
          = (store.getD ReviewDoc.empty).quality_error
      ∧ (PROrchestrator.set_merge store info).docs_error
          = (store.getD ReviewDoc.empty).docs_error
      ∧ (PROrchestrator.set_merge store info).security_error
          = (store.getD ReviewDoc.empty).security_error
      ∧ (PROrchestrator.set_merge store info).error_message
          = (store.getD ReviewDoc.empty).error_message
      ∧ (PROrchestrator.set_merge store info).final_report
          = (store.getD ReviewDoc.empty).final_report
      ∧ (PROrchestrator.set_merge store info).final_consolidator_error
          = (store.getD ReviewDoc.empty).final_consolidator_error := by
  intro store info
  refine ⟨rfl, rfl, rfl, rfl, rfl, rfl, rfl, rfl, rfl, rfl, rfl, rfl, rfl, rfl, rfl, rfl⟩

/-- The exact behaviour the retry helper implements, written out from
the retry contract (retryable classes retried with delay `2^attempt`
plus jitter, at most 3 calls, other failures re-raised at once):
`generate_content_with_retry` with `max_retries = 3` is fully
determined by the first three call outcomes. -/
def retryPolicySpec (out : Nat → CallOutcome) (jit : Nat → ℚ) : RetryResult :=
  match out 0 with
  | .ok t => .success t 1 []
  | .err e0 =>
    if e0.retryable then
      match out 1 with
      | .ok t => .success t 2 [(2 : ℚ) ^ 1 + jit 1]
      | .err e1 =>
        if e1.retryable then
          match out 2 with
          | .ok t => .success t 3 [(2 : ℚ) ^ 1 + jit 1, (2 : ℚ) ^ 2 + jit 2]
          | .err e2 => .failure e2 3 [(2 : ℚ) ^ 1 + jit 1, (2 : ℚ) ^ 2 + jit 2]
        else .failure e1 2 [(2 : ℚ) ^ 1 + jit 1]
    else .failure e0 1 []

/-- A call trace whose first attempt hits the rate limit and whose
second attempt succeeds. -/
def exTrace : Nat → CallOutcome
  | 0 => .err .resourceExhausted
  | _ + 1 => .ok "good feedback"

/-- Counterexample to C8: the quality agent's model call makes exactly
one attempt and records a "Model analysis failed" result on a trace
whose first outcome is the retryable rate-limit error — no retry
happens — whereas the retry helper (which C8 asserts every worker
uses) recovers on the same trace with one backoff of 2^1 seconds plus
jitter. -/
theorem quality_model_call_never_retries :
    exTrace 0 = .err .resourceExhausted
    ∧ ApiError.retryable .resourceExhausted = true
    ∧ (QualityAnalyst.model_call exTrace "a.py").2 = 1
    ∧ (QualityAnalyst.model_call exTrace "a.py").1.feedback
        = "Model analysis failed: 429 Resource has been exhausted"
    ∧ generate_content_with_retry exTrace (fun _ => 0) 3
        = .success "good feedback" 2 [2] := by
  refine ⟨rfl, rfl, rfl, rfl, ?_⟩
  show retryAux exTrace (fun _ => 0) 3 3 0 [] = _
  norm_num [retryAux, exTrace, ApiError.retryable]

/-- C8 (amended): the doc-drafter and report-consolidator calls go
through `generate_content_with_retry`, which behaves exactly as the
bounded-backoff contract says — retryable classes (429, 503, 500)
retried with delay `2^attempt + jitter`, at most 3 attempts, any other
failure re-raised immediately; the quality (and security) agents call
the model directly, making exactly one attempt per file with no
retry. -/
theorem retry_policy_characterization :
    (∀ (out : Nat → CallOutcome) (jit : Nat → ℚ),
        generate_content_with_retry out jit 3 = retryPolicySpec out jit)
    ∧ (∀ (out : Nat → CallOutcome) (fp : String),
        (QualityAnalyst.model_call out fp).2 = 1) := by
  constructor
  · intro out jit
    show retryAux out jit 3 3 0 [] = _
    unfold retryPolicySpec
    rcases h0 : out 0 with t0 | e0
    · simp [retryAux, h0]
    · rcases hr0 : e0.retryable with _ | _
      · simp [retryAux, h0, hr0]
      · rcases h1 : out 1 with t1 | e1
        · simp [retryAux, h0, hr0, h1]
        · rcases hr1 : e1.retryable with _ | _
          · simp [retryAux, h0, hr0, h1, hr1]
          · rcases h2 : out 2 with t2 | e2
            · simp [retryAux, h0, hr0, h1, hr1, h2]
            · rcases hr2 : e2.retryable with _ | _ <;>
                simp [retryAux, h0, hr0, h1, hr1, h2, hr2]
  · intro out fp
    unfold QualityAnalyst.model_call
    rcases h0 : out 0 with t0 | e0 <;> simp [h0]

/-- Witness for C7 (amended) at the concrete re-ingestion: status is
reset while the prior revision's quality results survive. -/
theorem create_or_replace_resets_counters_not_results_witness :
    (PROrchestrator.set_merge (some exDocWithResults)
        (PROrchestrator.extract_pr_info exPayloadSync)).status = some "pending"
    ∧ (PROrchestrator.set_merge (some exDocWithResults)
        (PROrchestrator.extract_pr_info exPayloadSync)).quality_analysis_results
        = ((some exDocWithResults).getD ReviewDoc.empty).quality_analysis_results :=
  ⟨(create_or_replace_resets_counters_not_results (some exDocWithResults)
      (PROrchestrator.extract_pr_info exPayloadSync)).1,
   (create_or_replace_resets_counters_not_results (some exDocWithResults)
      (PROrchestrator.extract_pr_info exPayloadSync)).2.2.2.2.2.2.2.1⟩

/-- Witness for C8 (amended) at the concrete trace: the helper follows
the contract and the quality agent makes one call. -/
theorem retry_policy_characterization_witness :
    generate_content_with_retry exTrace (fun _ => 0) 3
      = retryPolicySpec exTrace (fun _ => 0)
    ∧ (QualityAnalyst.model_call exTrace "a.py").2 = 1 :=
  ⟨retry_policy_characterization.1 exTrace (fun _ => 0),
   retry_policy_characterization.2 exTrace "a.py"⟩

end CodeReviewCopilot
